import Mathlib

/-!
Verification of the NL→SQL translation–execution–repair pipeline of
`src/app.js` (class `NL2SQLApp`) against its specification.

The JavaScript source is shallowly embedded as executable Lean functions:

* JS strings are `String` / `List Char`; JS `String.prototype.trim` and the
  regex class `\s` use the JS whitespace set (`jsWs`, `trimL`, `jsTrimS`).
* `cleanLLMResponse` embeds the regex extraction
  `/(three backticks)(?:sql|SQL)?\s*\n?([\s\S]*?)\n?(three backticks)/g`
  followed by `.trim()`: leftmost match, greedy `\s*` after the optional tag,
  lazy capture up to the first closing fence, one optional newline stripped
  on each side of the capture (`matchAt`, `firstMatch`).
* `escapeHtml` delegates in the source to the DOM
  (`div.textContent = text; return div.innerHTML`); it is embedded per the
  HTML fragment-serialization algorithm for text nodes, which replaces
  `&` with `&amp;`, U+00A0 with `&nbsp;`, `<` with `&lt;` and `>` with
  `&gt;`.  The unescape chain of `copySQLToEditor` is embedded as five
  global literal replacements (`r39`, `rQuot`, `rLt`, `rGt`, `rAmp`), in the
  source's order, with JS left-to-right non-rescanning semantics.
* The LLM network (`fetch` in `callLLM`) is an oracle
  `Nat → Except String String` giving each successive call's raw completion
  or its thrown error; `callLLM` applies `cleanLLMResponse` to a success.
* The SQL engine (sql.js) is external to the repository; it is abstracted
  as `Engine`: a schema snapshot (what the `sqlite_master` / `PRAGMA`
  queries of `getSchemaForLLM` return) plus
  `exec : String → Except String (List ResObj)`, the spec's §6 contract
  `execute(sqlText) -> sequence of {columns, rows}` (one entry per statement
  that returned a result set), raising an error message on malformed SQL.
* `executeNLQuery` and `runSQL` are embedded as pure functions over these
  interfaces; the rendered `innerHTML` is abstracted as an ordered list of
  `Block`s, and a `Trace` records the LLM calls (tagged with their call
  site) and the SQL texts submitted to the engine, in order.
-/

/-! ## JS string primitives -/

/-- The backtick character (U+0060). -/
def bt : Char := Char.ofNat 96

/-- The apostrophe character (U+0027). -/
def apos : Char := Char.ofNat 39

/-- The no-break space character (U+00A0). -/
def nbsp : Char := Char.ofNat 160

/-- JS whitespace class: the characters matched by the regex class `\s`,
which is also the set removed by `String.prototype.trim`. -/
def jsWs (c : Char) : Bool :=
  c == ' ' || c == '\t' || c == '\n' || c == '\r' ||
  c == Char.ofNat 11 || c == Char.ofNat 12 || c == nbsp ||
  c == Char.ofNat 0x1680 ||
  (decide (0x2000 ≤ c.toNat) && decide (c.toNat ≤ 0x200A)) ||
  c == Char.ofNat 0x2028 || c == Char.ofNat 0x2029 ||
  c == Char.ofNat 0x202F || c == Char.ofNat 0x205F ||
  c == Char.ofNat 0x3000 || c == Char.ofNat 0xFEFF

/-- Drop trailing JS whitespace. -/
def dropTrailWs (l : List Char) : List Char :=
  (l.reverse.dropWhile jsWs).reverse

/-- JS `String.prototype.trim` on a character list. -/
def trimL (l : List Char) : List Char :=
  dropTrailWs (l.dropWhile jsWs)

/-- JS `String.prototype.trim`. -/
def jsTrimS (s : String) : String :=
  (trimL s.data).asString

/-- Concatenation of a list of strings (JS `+=` accumulation). -/
def sjoin : List String → String
  | [] => ""
  | s :: l => s ++ sjoin l

/-! ## `cleanLLMResponse` (src/app.js lines 539-553) -/

/-- Test whether a character list starts with three backticks. -/
def startsTicks : List Char → Bool
  | a :: b :: c :: _ => a == bt && b == bt && c == bt
  | _ => false

/-- Split at the first occurrence of three consecutive backticks:
`some (before, after)` when found, `none` otherwise. -/
def splitTicks : List Char → Option (List Char × List Char)
  | [] => none
  | c :: cs =>
    if startsTicks (c :: cs) then some ([], (c :: cs).drop 3)
    else (splitTicks cs).map (fun p => (c :: p.1, p.2))

/-- Whether three consecutive backticks occur anywhere. -/
def hasTicks : List Char → Bool
  | [] => false
  | c :: cs => startsTicks (c :: cs) || hasTicks cs

/-- Strip the optional `sql` / `SQL` tag of the opening fence. -/
def stripTag : List Char → List Char
  | 's' :: 'q' :: 'l' :: rest => rest
  | 'S' :: 'Q' :: 'L' :: rest => rest
  | l => l

/-- Remove one trailing newline (the regex's `\n?` before the closing
fence, taken by the engine whenever present). -/
def dropTrailNl (l : List Char) : List Char :=
  match l.reverse with
  | '\n' :: rest => rest.reverse
  | _ => l

/-- Attempt the codeblock regex at this exact position: an opening fence,
the optional tag, greedy `\s*` (with `\n?` subsumed), then the lazy capture
up to the first closing fence, with one trailing newline stripped. -/
def matchAt (l : List Char) : Option (List Char) :=
  if startsTicks l then
    match splitTicks ((stripTag (l.drop 3)).dropWhile jsWs) with
    | none => none
    | some (before, _) => some (dropTrailNl before)
  else none

/-- Leftmost regex match: the capture group of the first position where
`matchAt` succeeds. -/
def firstMatch : List Char → Option (List Char)
  | [] => none
  | c :: cs =>
    match matchAt (c :: cs) with
    | some cap => some cap
    | none => firstMatch cs

/-- Embedding of `cleanLLMResponse` (src/app.js lines 539-553): if the raw
text contains a fenced code block, return the first match's capture
trimmed; otherwise return the raw text trimmed. -/
def cleanLLMResponse (s : String) : String :=
  match firstMatch s.data with
  | some cap => (trimL cap).asString
  | none => (trimL s.data).asString

/-! ## `escapeHtml` and the unescape chain of `copySQLToEditor` -/

/-- Image of one character under the DOM text-node serialization used by
`escapeHtml` (src/app.js lines 957-961): `&`, U+00A0, `<` and `>` become
entities, every other character is unchanged. -/
def escChar (c : Char) : List Char :=
  if c = '&' then ['&', 'a', 'm', 'p', ';']
  else if c = nbsp then ['&', 'n', 'b', 's', 'p', ';']
  else if c = '<' then ['&', 'l', 't', ';']
  else if c = '>' then ['&', 'g', 't', ';']
  else [c]

/-- Character-list form of `escapeHtml`. -/
def escapeHtmlL : List Char → List Char
  | [] => []
  | c :: cs => escChar c ++ escapeHtmlL cs

/-- Embedding of `escapeHtml` (src/app.js lines 957-961). -/
def escapeHtml (s : String) : String :=
  (escapeHtmlL s.data).asString

/-- Global replacement of `&#39;` by an apostrophe
(first step of `copySQLToEditor`, src/app.js line 746). -/
def r39 : List Char → List Char
  | '&' :: '#' :: '3' :: '9' :: ';' :: rest => apos :: r39 rest
  | c :: rest => c :: r39 rest
  | [] => []

/-- Global replacement of `&quot;` by a double quote (second step). -/
def rQuot : List Char → List Char
  | '&' :: 'q' :: 'u' :: 'o' :: 't' :: ';' :: rest => '"' :: rQuot rest
  | c :: rest => c :: rQuot rest
  | [] => []

/-- Global replacement of `&lt;` by `<` (third step). -/
def rLt : List Char → List Char
  | '&' :: 'l' :: 't' :: ';' :: rest => '<' :: rLt rest
  | c :: rest => c :: rLt rest
  | [] => []

/-- Global replacement of `&gt;` by `>` (fourth step). -/
def rGt : List Char → List Char
  | '&' :: 'g' :: 't' :: ';' :: rest => '>' :: rGt rest
  | c :: rest => c :: rGt rest
  | [] => []

/-- Global replacement of `&amp;` by `&` (fifth step). -/
def rAmp : List Char → List Char
  | '&' :: 'a' :: 'm' :: 'p' :: ';' :: rest => '&' :: rAmp rest
  | c :: rest => c :: rAmp rest
  | [] => []

/-- The unescaping chain of `copySQLToEditor` (src/app.js line 746): the
five global replacements applied in the source's order. -/
def copySQLUnescape (s : String) : String :=
  (rAmp (rGt (rLt (rQuot (r39 s.data))))).asString

/-- Per-character image of escaped text after the `&lt;` replacement. -/
def esc3 (c : Char) : List Char :=
  if c = '&' then ['&', 'a', 'm', 'p', ';']
  else if c = nbsp then ['&', 'n', 'b', 's', 'p', ';']
  else if c = '>' then ['&', 'g', 't', ';']
  else [c]

/-- List form of `esc3`. -/
def esc3L : List Char → List Char
  | [] => []
  | c :: cs => esc3 c ++ esc3L cs

/-- Per-character image of escaped text after the `&gt;` replacement. -/
def esc4 (c : Char) : List Char :=
  if c = '&' then ['&', 'a', 'm', 'p', ';']
  else if c = nbsp then ['&', 'n', 'b', 's', 'p', ';']
  else [c]

/-- List form of `esc4`. -/
def esc4L : List Char → List Char
  | [] => []
  | c :: cs => esc4 c ++ esc4L cs

/-! ## Data model -/

/-- One sql.js result object: `{columns, values}` with cells that may be
`NULL` (`none`). -/
structure ResObj where
  columns : List String
  values : List (List (Option String))
deriving DecidableEq, Repr

/-- One row of `PRAGMA table_info(t)` as consumed by `getSchemaForLLM`:
`[cid, name, type, notnull, dflt_value, pk]`, of which the name, the
declared type and the truthiness of `notnull` and `pk` are used. -/
structure ColumnRow where
  name : String
  type : String
  notnull : Bool
  pk : Bool
deriving DecidableEq, Repr

/-- One row of `PRAGMA foreign_key_list(t)` as consumed by
`getSchemaForLLM`: `fk[2]` is the referenced table, `fk[3]` the source
column, `fk[4]` the referenced column. -/
structure FKRow where
  table : String
  fromCol : String
  toCol : String
deriving DecidableEq, Repr

/-- The metadata of one table as discovered by the introspection queries:
an empty `cols` models `db.exec(PRAGMA table_info)` returning no result
object (falsy `columns` in the source). -/
structure TableInfo where
  name : String
  cols : List ColumnRow
  fks : List FKRow
deriving DecidableEq, Repr

/-- The embedded relational engine handle (`this.db`): the schema snapshot
read by the introspection queries, and `exec`, the spec §6 contract
`execute(sqlText) -> sequence of result objects`, raising an engine error
message on malformed SQL. -/
structure Engine where
  snap : List TableInfo
  exec : String → Except String (List ResObj)

/-- The settings consumed by `executeNLQuery`: the provider tag and the
API key credential (empty string = unset, falsy in the source). -/
structure Settings where
  provider : String
  apiKey : String
deriving DecidableEq, Repr

/-- Call-site tag of an LLM round-trip recorded in the trace. -/
inductive CallKind
  | generate
  | fix
  | explain
deriving DecidableEq, Repr

/-- One rendered fragment of the results `innerHTML`, in source order. -/
inductive Block
  | generatedSQL (sql : String)
  | results (r : ResObj)
  | answer (text : String)
  | noResultsWarning
  | sqlError (msg : String)
  | attemptingFix
  | fixedSQLCard (sql : String)
  | fixedResults (r : ResObj)
  | fixedAlsoFailed (msg : String)
  | topError (msg : String)
deriving DecidableEq, Repr

/-- Outcome of one `executeNLQuery` invocation: an early-return alert
(precondition failure) or the final rendered page. -/
inductive NLResult
  | alert (msg : String)
  | page (blocks : List Block)
deriving DecidableEq, Repr

/-- The blocks of a page outcome (an alert renders no blocks). -/
def NLResult.blocks : NLResult → List Block
  | NLResult.alert _ => []
  | NLResult.page bs => bs

/-- Side-effect trace of one invocation: the LLM calls (tagged with their
call site, carrying the prompt) and the SQL texts submitted to
`db.exec`, each list in chronological order. -/
structure Trace where
  llm : List (CallKind × String)
  execs : List String
deriving DecidableEq, Repr

/-- The classified outcome of an engine execution
(spec §3 `ExecutionOutcome`). -/
inductive Outcome
  | rows (r : ResObj)
  | empty
  | engineError (msg : String)
deriving DecidableEq, Repr

/-- Result Classifier (spec §4.5), as implemented by the branches
`if (results.length > 0)` of `executeNLQuery` (src/app.js line 436) and
`runSQL` (src/app.js lines 705, 714) on the engine execution result:
a thrown error is `EngineError`, a nonempty result list is `Rows` of its
first object (even with zero rows), an empty list is `Empty`. -/
def classify : Except String (List ResObj) → Outcome
  | Except.error e => Outcome.engineError e
  | Except.ok [] => Outcome.empty
  | Except.ok (r :: _) => Outcome.rows r

/-! ## Schema rendering (src/app.js lines 645-678) -/

/-- One rendered column line of `getSchemaForLLM` (src/app.js line 660):
`  - <name> (<type>)` with ` PRIMARY KEY` and/or ` NOT NULL` appended when
the pragma flags are truthy. -/
def colLine (c : ColumnRow) : String :=
  "  - " ++ c.name ++ " (" ++ c.type ++ ")" ++
  (if c.pk then " PRIMARY KEY" else "") ++
  (if c.notnull then " NOT NULL" else "") ++ "\n"

/-- One rendered foreign-key line of `getSchemaForLLM`
(src/app.js line 669): `  - <from> -> <table>.<to>`. -/
def fkLine (f : FKRow) : String :=
  "  - " ++ f.fromCol ++ " -> " ++ f.table ++ "." ++ f.toCol ++ "\n"

/-- One iteration of the `tables.values.forEach` loop of
`getSchemaForLLM` (src/app.js lines 652-674): append the header, the
`Columns:` section when the column pragma returned a result object, the
`Foreign Keys:` section when the foreign-key list is nonempty, and a
trailing newline. -/
def schemaStep (schema : String) (t : TableInfo) : String :=
  let s1 := schema ++ "Table: " ++ t.name ++ "\n"
  let s2 :=
    if t.cols.isEmpty then s1
    else t.cols.foldl (fun acc c => acc ++ colLine c) (s1 ++ "Columns:\n")
  let s3 :=
    if t.fks.isEmpty then s2
    else t.fks.foldl (fun acc f => acc ++ fkLine f) (s2 ++ "Foreign Keys:\n")
  s3 ++ "\n"

/-- Embedding of `getSchemaForLLM` (src/app.js lines 645-678): the
accumulating `schema +=` walk over the tables. -/
def getSchemaForLLM (snap : List TableInfo) : String :=
  snap.foldl schemaStep ""

/-- Spec wording of one rendered table block (spec §4.1, for the
refinement theorem of the rendering): the header line, the `Columns:`
section listing the columns, the `Foreign Keys:` section only if
non-empty, and the trailing blank line. -/
def specTableBlock (t : TableInfo) : String :=
  "Table: " ++ t.name ++ "\n"
  ++ (if t.cols.isEmpty then "" else "Columns:\n" ++ sjoin (t.cols.map colLine))
  ++ (if t.fks.isEmpty then "" else "Foreign Keys:\n" ++ sjoin (t.fks.map fkLine))
  ++ "\n"

/-! ## Prompt builders (src/app.js lines 494-536) -/

/-- The generate prompt of `generateSQL` (src/app.js lines 495-501). -/
def generatePrompt (naturalQuery schema : String) : String :=
  "Given the following database schema:\n\n" ++ schema ++
  "\n\nGenerate a SQL query for this request: \"" ++ naturalQuery ++
  "\"\n\nReturn ONLY the SQL query, no explanations or markdown."

/-- The repair prompt of `fixSQL` (src/app.js lines 507-518). -/
def fixPrompt (sqlQuery errorMessage schema : String) : String :=
  "The following SQL query failed with an error:\n\nSQL Query:\n" ++
  sqlQuery ++ "\n\nError:\n" ++ errorMessage ++ "\n\nDatabase Schema:\n" ++
  schema ++ "\n\nPlease fix the SQL query. Return ONLY the corrected SQL, no explanations."

/-- Rendering of one preview cell in `getExplanation`: JS `Array.join`
renders `null` as the empty string and any other cell verbatim. -/
def cellStr : Option String → String
  | none => ""
  | some s => s

/-- The explain prompt of `getExplanation` (src/app.js lines 523-536):
column names joined with `, `, at most the first five rows each joined
with `, `, rows separated by newlines, no re-escaping. -/
def explainPrompt (question sqlQuery : String) (results : ResObj) : String :=
  "Given this question: \"" ++ question ++
  "\"\n\nAnd this SQL query: " ++ sqlQuery ++
  "\n\nWhich returned these results (first 5 rows):\n" ++
  String.intercalate ", " results.columns ++ "\n" ++
  String.intercalate "\n"
    ((results.values.take 5).map (fun row => String.intercalate ", " (row.map cellStr))) ++
  "\n\nProvide a brief, natural language answer to the original question based on the results. Be concise and direct."

/-! ## The orchestrator `executeNLQuery` (src/app.js lines 389-492) -/

/-- The repair branch of `executeNLQuery` (the `catch (sqlError)` block,
src/app.js lines 455-482): render the error and the attempting-fix notice,
call the LLM once for a fixed statement (a thrown fetch error escapes to
the outer catch, which replaces the page with a single error), and only
when the cleaned fix is nonempty and differs from the failing SQL, render
it and execute it once, rendering its rows, nothing, or its error. -/
def repairFlow (oracle : Nat → Except String String) (idx : Nat) (eng : Engine)
    (schema sqlQuery errMsg : String) (prior : List Block)
    (llmAcc : List (CallKind × String)) (execAcc : List String) : NLResult × Trace :=
  let prior2 := prior ++ [Block.sqlError errMsg, Block.attemptingFix]
  let fp := fixPrompt sqlQuery errMsg schema
  let llm2 := llmAcc ++ [(CallKind.fix, fp)]
  match oracle idx with
  | Except.error e => (NLResult.page [Block.topError e], ⟨llm2, execAcc⟩)
  | Except.ok raw =>
    let fixedSQL := cleanLLMResponse raw
    if fixedSQL ≠ "" ∧ fixedSQL ≠ sqlQuery then
      let prior3 := prior2 ++ [Block.fixedSQLCard fixedSQL]
      match eng.exec fixedSQL with
      | Except.ok (r :: _) =>
        (NLResult.page (prior3 ++ [Block.fixedResults r]), ⟨llm2, execAcc ++ [fixedSQL]⟩)
      | Except.ok [] => (NLResult.page prior3, ⟨llm2, execAcc ++ [fixedSQL]⟩)
      | Except.error e2 =>
        (NLResult.page (prior3 ++ [Block.fixedAlsoFailed e2]), ⟨llm2, execAcc ++ [fixedSQL]⟩)
    else (NLResult.page prior2, ⟨llm2, execAcc⟩)

/-- Embedding of `executeNLQuery` (src/app.js lines 389-492).  The three
precondition checks return an alert before any schema read, network call
or execution.  Then: generate (LLM call 0, its cleaned text is the
candidate SQL), execute; on a nonempty result list render the rows and run
the explain call, whose failure falls into the same `catch (sqlError)`
as an execution error; on an empty list render the no-results warning; on
an execution error enter the repair branch. -/
def executeNLQuery (oracle : Nat → Except String String) (settings : Settings)
    (db : Option Engine) (input : String) : NLResult × Trace :=
  let query := jsTrimS input
  if query = "" then (NLResult.alert "Please enter a question", ⟨[], []⟩)
  else
    match db with
    | none => (NLResult.alert "Please load a database first", ⟨[], []⟩)
    | some eng =>
      if settings.apiKey = "" then
        (NLResult.alert "Please configure your API key in settings", ⟨[], []⟩)
      else
        let schema := getSchemaForLLM eng.snap
        let gp := generatePrompt query schema
        match oracle 0 with
        | Except.error e => (NLResult.page [Block.topError e], ⟨[(CallKind.generate, gp)], []⟩)
        | Except.ok raw =>
          let sqlQuery := cleanLLMResponse raw
          let llm1 := [(CallKind.generate, gp)]
          match eng.exec sqlQuery with
          | Except.ok (r :: _) =>
            let ep := explainPrompt query sqlQuery r
            match oracle 1 with
            | Except.ok rawE =>
              (NLResult.page [Block.generatedSQL sqlQuery, Block.results r,
                              Block.answer (cleanLLMResponse rawE)],
               ⟨llm1 ++ [(CallKind.explain, ep)], [sqlQuery]⟩)
            | Except.error e =>
              repairFlow oracle 2 eng schema sqlQuery e
                [Block.generatedSQL sqlQuery, Block.results r]
                (llm1 ++ [(CallKind.explain, ep)]) [sqlQuery]
          | Except.ok [] =>
            (NLResult.page [Block.generatedSQL sqlQuery, Block.noResultsWarning],
             ⟨llm1, [sqlQuery]⟩)
          | Except.error e =>
            repairFlow oracle 1 eng schema sqlQuery e
              [Block.generatedSQL sqlQuery] llm1 [sqlQuery]

/-! ## The SQL editor runner `runSQL` (src/app.js lines 681-729) -/

/-- JS `sql.split(single semicolon)` on a character list. -/
def splitSemi : List Char → List (List Char)
  | [] => [[]]
  | c :: cs =>
    if c = ';' then [] :: splitSemi cs
    else
      match splitSemi cs with
      | [] => [[c]]
      | h :: t => (c :: h) :: t

/-- Outcome of one `runSQL` invocation. -/
inductive RunOutcome
  | alert (msg : String)
  | sqlError (msg : String)
  | noResults
  | tables (entries : List (Nat × String × ResObj))
deriving DecidableEq, Repr

/-- The statement loop of `runSQL` (src/app.js lines 701-712): execute the
statements in order (`idx` is the 0-based `forEach` position), abort the
whole submission on the first thrown error, and collect
`(index + 1, statement, results[0])` for each statement whose execution
returned at least one result object. -/
def execStatements (exec : String → Except String (List ResObj)) :
    List String → Nat → Except String (List (Nat × String × ResObj))
  | [], _ => Except.ok []
  | st :: rest, idx =>
    if jsTrimS st = "" then execStatements exec rest (idx + 1)
    else
      match exec st with
      | Except.error e => Except.error e
      | Except.ok [] => execStatements exec rest (idx + 1)
      | Except.ok (r :: _) =>
        (execStatements exec rest (idx + 1)).map (fun acc => (idx + 1, st, r) :: acc)

/-- Embedding of `runSQL` (src/app.js lines 681-729): trim the editor
text, check the two preconditions, split on semicolons, drop statements
that are blank after trimming, execute the rest in source order, and
report the error, the no-results notice, or the collected result tables. -/
def runSQL (db : Option Engine) (editorValue : String) : RunOutcome :=
  let sql := jsTrimS editorValue
  if sql = "" then RunOutcome.alert "Please enter a SQL query"
  else
    match db with
    | none => RunOutcome.alert "Please load a database first"
    | some eng =>
      let statements := ((splitSemi sql.data).map List.asString).filter
        (fun s => !(jsTrimS s == ""))
      match execStatements eng.exec statements 0 with
      | Except.error e => RunOutcome.sqlError e
      | Except.ok [] => RunOutcome.noResults
      | Except.ok entries => RunOutcome.tables entries

/-! ## Concrete oracles and engines for the closed instances -/

/-- Modelled from the spec: an engine for §6's `execute` contract in which
a DDL-only submission such as `CREATE TABLE t(x);` produces no result
object at all (spec §8: "A submission of `CREATE TABLE t(x);` with no
`SELECT` yields `Empty`"). -/
def ddlEngine : Engine :=
  ⟨[], fun _ => Except.ok []⟩

/-- Modelled from the spec: an engine for §6's `execute` contract in which
`SELECT 1` and ` SELECT 2` each return one single-cell result set
(spec §8: "A submission of `SELECT 1;` yields one `Rows` entry with one
row `[1]`"), and anything else raises. -/
def sel2Engine : Engine :=
  ⟨[], fun s =>
    if s = "SELECT 1" then Except.ok [⟨["1"], [[some "1"]]⟩]
    else if s = " SELECT 2" then Except.ok [⟨["2"], [[some "2"]]⟩]
    else Except.error "near error"⟩

/-- Engine whose every execution raises, for the repair-path instances. -/
def failEngine : Engine :=
  ⟨[], fun _ => Except.error "no such table: missing"⟩

/-- Oracle whose generate and repair calls both return the same failing
SQL text. -/
def identicalFixOracle : Nat → Except String String :=
  fun _ => Except.ok "SELECT BAD"

/-- Oracle for the explain-failure instance: generate returns
`SELECT 1`, the explain call throws, the repair call returns a different
statement. -/
def explainFailOracle : Nat → Except String String :=
  fun n =>
    if n = 0 then Except.ok "SELECT 1"
    else if n = 1 then Except.error "Failed to fetch"
    else Except.ok "SELECT 2"

/-- Engine for the explain-failure instance: `SELECT 1` returns one row,
anything else raises. -/
def selOneEngine : Engine :=
  ⟨[], fun s =>
    if s = "SELECT 1" then Except.ok [⟨["1"], [[some "1"]]⟩]
    else Except.error "near error"⟩

/-- Oracle for the exactly-one-repair instance: generate returns
`SELECT A`, the repair call returns `SELECT B`. -/
def repairOnceOracle : Nat → Except String String :=
  fun n => if n = 0 then Except.ok "SELECT A" else Except.ok "SELECT B"

/-! ## String helper lemmas -/

theorem dropWhile_idem (p : α → Bool) (l : List α) :
    (l.dropWhile p).dropWhile p = l.dropWhile p := by
  induction l with
  | nil => rfl
  | cons x xs ih => by_cases h : p x <;> simp [List.dropWhile_cons, h, ih]

theorem trimL_dropWhile (l : List Char) : trimL (l.dropWhile jsWs) = trimL l := by
  simp [trimL, dropWhile_idem]

theorem mem_of_mem_dropWhile (p : α → Bool) (l : List α) (a : α)
    (h : a ∈ l.dropWhile p) : a ∈ l := by
  induction l with
  | nil => simp at h
  | cons x xs ih =>
    by_cases hx : p x
    · simp [List.dropWhile_cons, hx] at h
      exact List.mem_cons_of_mem x (ih h)
    · simpa [List.dropWhile_cons, hx] using h

theorem foldl_append_sjoin (g : α → String) (l : List α) (acc : String) :
    l.foldl (fun s a => s ++ g a) acc = acc ++ sjoin (l.map g) := by
  induction l generalizing acc with
  | nil => simp [sjoin]
  | cons x xs ih => simp [sjoin, ih, String.append_assoc]

/-! ## Lemmas about the `cleanLLMResponse` embedding -/

theorem startsTicks_cons_ne (c : Char) (l : List Char) (h : c ≠ bt) :
    startsTicks (c :: l) = false := by
  rcases l with _ | ⟨y, _ | ⟨z, l⟩⟩ <;> simp [startsTicks, h]

theorem splitTicks_append (xs : List Char) (rest : List Char) (h : bt ∉ xs) :
    splitTicks (xs ++ bt :: bt :: bt :: rest) = some (xs, rest) := by
  induction xs with
  | nil => simp [splitTicks, startsTicks]
  | cons x xs ih =>
    have hx : x ≠ bt := fun hx => h (hx ▸ List.mem_cons_self x xs)
    have hxs : bt ∉ xs := fun hm => h (List.mem_cons_of_mem x hm)
    rw [List.cons_append, splitTicks, startsTicks_cons_ne _ _ hx]
    simp [ih hxs]

theorem matchAt_cons_ne (c : Char) (l : List Char) (h : c ≠ bt) :
    matchAt (c :: l) = none := by
  simp [matchAt, startsTicks_cons_ne c l h]

theorem firstMatch_skip (pre M : List Char) (h : bt ∉ pre) :
    firstMatch (pre ++ M) = firstMatch M := by
  induction pre with
  | nil => rfl
  | cons c cs ih =>
    have hc : c ≠ bt := fun hc => h (hc ▸ List.mem_cons_self c cs)
    have hcs : bt ∉ cs := fun hm => h (List.mem_cons_of_mem c hm)
    rw [List.cons_append, firstMatch, matchAt_cons_ne _ _ hc]
    exact ih hcs

theorem firstMatch_of_no_ticks (l : List Char) (h : hasTicks l = false) :
    firstMatch l = none := by
  induction l with
  | nil => rfl
  | cons c cs ih =>
    rw [hasTicks, Bool.or_eq_false_iff] at h
    rw [firstMatch, matchAt, h.1]
    simp [ih h.2]

theorem dropTrailNl_append_nl (xs : List Char) : dropTrailNl (xs ++ ['\n']) = xs := by
  simp [dropTrailNl, List.reverse_append]

theorem dropTrailNl_nil : dropTrailNl [] = [] := rfl

theorem jsWs_nl : jsWs '\n' = true := rfl

theorem jsWs_bt : jsWs bt = false := rfl

/-- Helper for the fenced-block theorem: the capture of a well-formed
`sql`-tagged fence is the body stripped of leading whitespace. -/
theorem matchAt_fence (body post : List Char) (hbody : bt ∉ body) :
    matchAt (bt :: bt :: bt :: 's' :: 'q' :: 'l' :: '\n' ::
             (body ++ '\n' :: bt :: bt :: bt :: post))
      = some (body.dropWhile jsWs) := by
  rw [matchAt]
  have hst : startsTicks (bt :: bt :: bt :: 's' :: 'q' :: 'l' :: '\n' ::
      (body ++ '\n' :: bt :: bt :: bt :: post)) = true := by simp [startsTicks]
  rw [hst, if_pos rfl]
  have hdrop : (bt :: bt :: bt :: 's' :: 'q' :: 'l' :: '\n' ::
      (body ++ '\n' :: bt :: bt :: bt :: post)).drop 3
      = 's' :: 'q' :: 'l' :: '\n' :: (body ++ '\n' :: bt :: bt :: bt :: post) := rfl
  rw [hdrop]
  have htag : stripTag ('s' :: 'q' :: 'l' :: '\n' :: (body ++ '\n' :: bt :: bt :: bt :: post))
      = '\n' :: (body ++ '\n' :: bt :: bt :: bt :: post) := rfl
  rw [htag, List.dropWhile_cons, jsWs_nl, if_pos rfl, List.dropWhile_append]
  by_cases hb : (body.dropWhile jsWs).isEmpty
  · rw [if_pos hb]
    have : List.dropWhile jsWs ('\n' :: bt :: bt :: bt :: post) = bt :: bt :: bt :: post := by
      rw [List.dropWhile_cons, jsWs_nl, if_pos rfl, List.dropWhile_cons, jsWs_bt]
      simp
    rw [this]
    have h0 : splitTicks (([] : List Char) ++ bt :: bt :: bt :: post) = some ([], post) :=
      splitTicks_append [] post (by simp)
    rw [List.nil_append] at h0
    rw [h0]
    have hnil : List.dropWhile jsWs body = [] := by
      cases hd : List.dropWhile jsWs body with
      | nil => rfl
      | cons x xs => rw [hd] at hb; simp [List.isEmpty] at hb
    rw [hnil]
    rfl
  · rw [if_neg hb]
    have hmem : bt ∉ body.dropWhile jsWs := fun hm => hbody (mem_of_mem_dropWhile _ _ _ hm)
    have hre : body.dropWhile jsWs ++ '\n' :: bt :: bt :: bt :: post
        = (body.dropWhile jsWs ++ ['\n']) ++ bt :: bt :: bt :: post := by
      simp [List.append_assoc]
    rw [hre, splitTicks_append _ post (by
      intro hm
      rcases List.mem_append.mp hm with hm | hm
      · exact hmem hm
      · simp at hm
        exact absurd hm (by decide))]
    show some (dropTrailNl (List.dropWhile jsWs body ++ ['\n'])) = _
    rw [dropTrailNl_append_nl]

/-- C5.  The response cleaner: the tagged single-fence example extracts
exactly the fenced SQL; an input with no three-backtick run anywhere is
returned trimmed; for every input consisting of backtick-free text, a
`sql`-tagged fenced body (backtick-free) and arbitrary trailing text, the
cleaner returns exactly the first fence's body, trimmed; and an input with
two fenced blocks yields only the first block's content. -/
theorem cleanLLMResponse_spec :
    (cleanLLMResponse "```sql\nSELECT 1;\n```" = "SELECT 1;")
    ∧ (∀ s : String, hasTicks s.data = false → cleanLLMResponse s = jsTrimS s)
    ∧ (∀ pre body post : List Char, bt ∉ pre → bt ∉ body →
        cleanLLMResponse (List.asString
            (pre ++ bt :: bt :: bt :: 's' :: 'q' :: 'l' :: '\n' ::
             (body ++ '\n' :: bt :: bt :: bt :: post)))
          = (trimL body).asString)
    ∧ (cleanLLMResponse "```\nA\n```\nmid\n```\nB\n```" = "A") := by
  refine ⟨by decide, ?_, ?_, by decide⟩
  · intro s h
    rw [cleanLLMResponse, firstMatch_of_no_ticks s.data h]
    rfl
  · intro pre body post hpre hbody
    rw [cleanLLMResponse]
    have hdata : (List.asString
        (pre ++ bt :: bt :: bt :: 's' :: 'q' :: 'l' :: '\n' ::
         (body ++ '\n' :: bt :: bt :: bt :: post))).data
        = pre ++ bt :: bt :: bt :: 's' :: 'q' :: 'l' :: '\n' ::
          (body ++ '\n' :: bt :: bt :: bt :: post) := rfl
    rw [hdata, firstMatch_skip pre _ hpre, firstMatch,
        matchAt_fence body post hbody]
    show (trimL (List.dropWhile jsWs body)).asString = _
    rw [trimL_dropWhile body]

/-! ## Lemmas about the escape / unescape chain -/

theorem r39_cons_ne (c : Char) (l : List Char) (h : c ≠ '&') :
    r39 (c :: l) = c :: r39 l := by
  rw [r39.eq_def]
  split <;> simp_all

theorem rQuot_cons_ne (c : Char) (l : List Char) (h : c ≠ '&') :
    rQuot (c :: l) = c :: rQuot l := by
  rw [rQuot.eq_def]
  split <;> simp_all

theorem rLt_cons_ne (c : Char) (l : List Char) (h : c ≠ '&') :
    rLt (c :: l) = c :: rLt l := by
  rw [rLt.eq_def]
  split <;> simp_all

theorem rGt_cons_ne (c : Char) (l : List Char) (h : c ≠ '&') :
    rGt (c :: l) = c :: rGt l := by
  rw [rGt.eq_def]
  split <;> simp_all

theorem rAmp_cons_ne (c : Char) (l : List Char) (h : c ≠ '&') :
    rAmp (c :: l) = c :: rAmp l := by
  rw [rAmp.eq_def]
  split <;> simp_all

theorem r39_ampChunk (X : List Char) :
    r39 (['&', 'a', 'm', 'p', ';'] ++ X) = ['&', 'a', 'm', 'p', ';'] ++ r39 X := rfl

theorem r39_nbspChunk (X : List Char) :
    r39 (['&', 'n', 'b', 's', 'p', ';'] ++ X) = ['&', 'n', 'b', 's', 'p', ';'] ++ r39 X := rfl

theorem r39_ltChunk (X : List Char) :
    r39 (['&', 'l', 't', ';'] ++ X) = ['&', 'l', 't', ';'] ++ r39 X := rfl

theorem r39_gtChunk (X : List Char) :
    r39 (['&', 'g', 't', ';'] ++ X) = ['&', 'g', 't', ';'] ++ r39 X := rfl

theorem rQuot_ampChunk (X : List Char) :
    rQuot (['&', 'a', 'm', 'p', ';'] ++ X) = ['&', 'a', 'm', 'p', ';'] ++ rQuot X := rfl

theorem rQuot_nbspChunk (X : List Char) :
    rQuot (['&', 'n', 'b', 's', 'p', ';'] ++ X) = ['&', 'n', 'b', 's', 'p', ';'] ++ rQuot X := rfl

theorem rQuot_ltChunk (X : List Char) :
    rQuot (['&', 'l', 't', ';'] ++ X) = ['&', 'l', 't', ';'] ++ rQuot X := rfl

theorem rQuot_gtChunk (X : List Char) :
    rQuot (['&', 'g', 't', ';'] ++ X) = ['&', 'g', 't', ';'] ++ rQuot X := rfl

theorem rLt_ampChunk (X : List Char) :
    rLt (['&', 'a', 'm', 'p', ';'] ++ X) = ['&', 'a', 'm', 'p', ';'] ++ rLt X := rfl

theorem rLt_nbspChunk (X : List Char) :
    rLt (['&', 'n', 'b', 's', 'p', ';'] ++ X) = ['&', 'n', 'b', 's', 'p', ';'] ++ rLt X := rfl

theorem rLt_ltChunk (X : List Char) :
    rLt (['&', 'l', 't', ';'] ++ X) = '<' :: rLt X := rfl

theorem rLt_gtChunk (X : List Char) :
    rLt (['&', 'g', 't', ';'] ++ X) = ['&', 'g', 't', ';'] ++ rLt X := rfl

theorem rGt_ampChunk (X : List Char) :
    rGt (['&', 'a', 'm', 'p', ';'] ++ X) = ['&', 'a', 'm', 'p', ';'] ++ rGt X := rfl

theorem rGt_nbspChunk (X : List Char) :
    rGt (['&', 'n', 'b', 's', 'p', ';'] ++ X) = ['&', 'n', 'b', 's', 'p', ';'] ++ rGt X := rfl

theorem rGt_gtChunk (X : List Char) :
    rGt (['&', 'g', 't', ';'] ++ X) = '>' :: rGt X := rfl

theorem rAmp_ampChunk (X : List Char) :
    rAmp (['&', 'a', 'm', 'p', ';'] ++ X) = '&' :: rAmp X := rfl

/-- All characters `escChar` ever emits besides `&` are not `&`. -/
theorem escChar_single (c : Char) (h1 : c ≠ '&') (h2 : c ≠ nbsp) (h3 : c ≠ '<')
    (h4 : c ≠ '>') : escChar c = [c] := by
  simp [escChar, h1, h2, h3, h4]

theorem r39_escape (l : List Char) : r39 (escapeHtmlL l) = escapeHtmlL l := by
  induction l with
  | nil => rfl
  | cons c cs ih =>
    show r39 (escChar c ++ escapeHtmlL cs) = escChar c ++ escapeHtmlL cs
    by_cases h1 : c = '&'
    · subst h1; rw [show escChar '&' = ['&', 'a', 'm', 'p', ';'] from rfl, r39_ampChunk, ih]
    by_cases h2 : c = nbsp
    · subst h2; rw [show escChar nbsp = ['&', 'n', 'b', 's', 'p', ';'] from rfl, r39_nbspChunk, ih]
    by_cases h3 : c = '<'
    · subst h3; rw [show escChar '<' = ['&', 'l', 't', ';'] from rfl, r39_ltChunk, ih]
    by_cases h4 : c = '>'
    · subst h4; rw [show escChar '>' = ['&', 'g', 't', ';'] from rfl, r39_gtChunk, ih]
    · rw [escChar_single c h1 h2 h3 h4, List.singleton_append, r39_cons_ne c _ h1, ih]

theorem rQuot_escape (l : List Char) : rQuot (escapeHtmlL l) = escapeHtmlL l := by
  induction l with
  | nil => rfl
  | cons c cs ih =>
    show rQuot (escChar c ++ escapeHtmlL cs) = escChar c ++ escapeHtmlL cs
    by_cases h1 : c = '&'
    · subst h1; rw [show escChar '&' = ['&', 'a', 'm', 'p', ';'] from rfl, rQuot_ampChunk, ih]
    by_cases h2 : c = nbsp
    · subst h2; rw [show escChar nbsp = ['&', 'n', 'b', 's', 'p', ';'] from rfl, rQuot_nbspChunk, ih]
    by_cases h3 : c = '<'
    · subst h3; rw [show escChar '<' = ['&', 'l', 't', ';'] from rfl, rQuot_ltChunk, ih]
    by_cases h4 : c = '>'
    · subst h4; rw [show escChar '>' = ['&', 'g', 't', ';'] from rfl, rQuot_gtChunk, ih]
    · rw [escChar_single c h1 h2 h3 h4, List.singleton_append, rQuot_cons_ne c _ h1, ih]

theorem rLt_escape (l : List Char) : rLt (escapeHtmlL l) = esc3L l := by
  induction l with
  | nil => rfl
  | cons c cs ih =>
    show rLt (escChar c ++ escapeHtmlL cs) = esc3 c ++ esc3L cs
    by_cases h1 : c = '&'
    · subst h1
      rw [show escChar '&' = ['&', 'a', 'm', 'p', ';'] from rfl, rLt_ampChunk, ih]
      rfl
    by_cases h2 : c = nbsp
    · subst h2
      rw [show escChar nbsp = ['&', 'n', 'b', 's', 'p', ';'] from rfl, rLt_nbspChunk, ih]
      rfl
    by_cases h3 : c = '<'
    · subst h3
      rw [show escChar '<' = ['&', 'l', 't', ';'] from rfl, rLt_ltChunk, ih]
      rfl
    by_cases h4 : c = '>'
    · subst h4
      rw [show escChar '>' = ['&', 'g', 't', ';'] from rfl, rLt_gtChunk, ih]
      rfl
    · rw [escChar_single c h1 h2 h3 h4, List.singleton_append, rLt_cons_ne c _ h1, ih,
          show esc3 c = [c] from by simp [esc3, h1, h2, h4], List.singleton_append]

theorem rGt_esc3 (l : List Char) : rGt (esc3L l) = esc4L l := by
  induction l with
  | nil => rfl
  | cons c cs ih =>
    show rGt (esc3 c ++ esc3L cs) = esc4 c ++ esc4L cs
    by_cases h1 : c = '&'
    · subst h1
      rw [show esc3 '&' = ['&', 'a', 'm', 'p', ';'] from rfl, rGt_ampChunk, ih]
      rfl
    by_cases h2 : c = nbsp
    · subst h2
      rw [show esc3 nbsp = ['&', 'n', 'b', 's', 'p', ';'] from rfl, rGt_nbspChunk, ih]
      rfl
    by_cases h4 : c = '>'
    · subst h4
      rw [show esc3 '>' = ['&', 'g', 't', ';'] from rfl, rGt_gtChunk, ih]
      rfl
    · rw [show esc3 c = [c] from by simp [esc3, h1, h2, h4], List.singleton_append,
          rGt_cons_ne c _ h1, ih,
          show esc4 c = [c] from by simp [esc4, h1, h2], List.singleton_append]

theorem rAmp_esc4 (l : List Char) (h : ∀ c ∈ l, c ≠ nbsp) : rAmp (esc4L l) = l := by
  induction l with
  | nil => rfl
  | cons c cs ih =>
    have hc : c ≠ nbsp := h c (List.mem_cons_self c cs)
    have hcs : ∀ x ∈ cs, x ≠ nbsp := fun x hx => h x (List.mem_cons_of_mem c hx)
    show rAmp (esc4 c ++ esc4L cs) = c :: cs
    by_cases h1 : c = '&'
    · subst h1
      rw [show esc4 '&' = ['&', 'a', 'm', 'p', ';'] from rfl, rAmp_ampChunk, ih hcs]
    · rw [show esc4 c = [c] from by simp [esc4, h1, hc], List.singleton_append,
          rAmp_cons_ne c _ h1, ih hcs]

/-- C10 (amended).  For every string that contains no U+00A0 character,
the unescaping chain of `copySQLToEditor` inverts `escapeHtml`, so
generated SQL copied to the editor round-trips unmodified.  (The
counterexample theorem shows the restriction is necessary: `escapeHtml`
serializes U+00A0 as an `&nbsp;` entity, which none of the five
replacements restores.) -/
theorem copySQLUnescape_escapeHtml (s : String) (h : ∀ c ∈ s.data, c ≠ nbsp) :
    copySQLUnescape (escapeHtml s) = s := by
  show (rAmp (rGt (rLt (rQuot (r39 (escapeHtml s).data))))).asString = s
  have hd : (escapeHtml s).data = escapeHtmlL s.data := rfl
  rw [hd, r39_escape, rQuot_escape, rLt_escape, rGt_esc3, rAmp_esc4 s.data h]
  rfl

/-- C10 (counterexample).  The single-character string U+00A0 does not
round-trip: `escapeHtml` renders it as `&nbsp;`, which the unescaping
chain of `copySQLToEditor` leaves untouched. -/
theorem copySQLUnescape_escapeHtml_cex :
    copySQLUnescape (escapeHtml (List.asString [nbsp])) ≠ List.asString [nbsp] := by decide

/-- C10 (witness). -/
theorem copySQLUnescape_escapeHtml_witness :
    copySQLUnescape (escapeHtml "SELECT * FROM t WHERE a < b AND c > \"x & y\";")
      = "SELECT * FROM t WHERE a < b AND c > \"x & y\";" :=
  copySQLUnescape_escapeHtml _ (by decide)

/-! ## Schema rendering and explain prompt -/

theorem schemaStep_eq (acc : String) (t : TableInfo) :
    schemaStep acc t = acc ++ specTableBlock t := by
  rw [schemaStep, specTableBlock]
  by_cases hc : t.cols.isEmpty <;> by_cases hf : t.fks.isEmpty
  all_goals
    apply String.ext
    simp [hc, hf, foldl_append_sjoin, String.data_append]

theorem getSchemaForLLM_foldl (snap : List TableInfo) (acc : String) :
    snap.foldl schemaStep acc = acc ++ sjoin (snap.map specTableBlock) := by
  induction snap generalizing acc with
  | nil => simp [sjoin]
  | cons t ts ih =>
    rw [List.foldl_cons, schemaStep_eq, ih, List.map_cons]
    rw [show sjoin (specTableBlock t :: List.map specTableBlock ts)
          = specTableBlock t ++ sjoin (List.map specTableBlock ts) from rfl]
    rw [String.append_assoc]

/-- C8.  The prompt-text schema rendering is the concatenation, one block
per table, of: a `Table:` header line, a `Columns:` section present
exactly when the column pragma returned rows (each column as
`- <name> (<type>)` with ` PRIMARY KEY` and/or ` NOT NULL` appended when
applicable), a `Foreign Keys:` section present exactly when the table has
at least one foreign key (each as `- <from> -> <table>.<to>`), and a
trailing blank line; a table with zero columns is still rendered as a
block rather than omitted. -/
theorem getSchemaForLLM_blocks :
    (∀ snap : List TableInfo,
      getSchemaForLLM snap = sjoin (snap.map specTableBlock))
    ∧ (∀ t : TableInfo, specTableBlock t
        = "Table: " ++ t.name ++ "\n"
          ++ (if t.cols.isEmpty then "" else "Columns:\n" ++ sjoin (t.cols.map colLine))
          ++ (if t.fks.isEmpty then "" else "Foreign Keys:\n" ++ sjoin (t.fks.map fkLine))
          ++ "\n")
    ∧ (∀ name : String,
        getSchemaForLLM [⟨name, [], []⟩] = "Table: " ++ name ++ "\n" ++ "\n")
    ∧ (∀ c : ColumnRow, colLine c
        = "  - " ++ c.name ++ " (" ++ c.type ++ ")"
          ++ (if c.pk then " PRIMARY KEY" else "")
          ++ (if c.notnull then " NOT NULL" else "") ++ "\n")
    ∧ (∀ f : FKRow, fkLine f
        = "  - " ++ f.fromCol ++ " -> " ++ f.table ++ "." ++ f.toCol ++ "\n") := by
  refine ⟨?_, fun t => rfl, ?_, fun c => rfl, fun f => rfl⟩
  · intro snap
    rw [getSchemaForLLM, getSchemaForLLM_foldl]
    apply String.ext
    simp [String.data_append]
  · intro name
    rw [getSchemaForLLM, getSchemaForLLM_foldl]
    apply String.ext
    simp [sjoin, specTableBlock, String.data_append]

/-- C9.  The explain prompt depends only on the first five result rows,
and it contains verbatim (no re-escaping): the preview of those rows with
each row's cells joined by a comma separator, the original question, and
the comma-joined column names. -/
theorem explainPrompt_spec (q sql : String) (res : ResObj) :
    (explainPrompt q sql res = explainPrompt q sql ⟨res.columns, res.values.take 5⟩)
    ∧ (∃ a b, explainPrompt q sql res
        = a ++ String.intercalate "\n"
            ((res.values.take 5).map (fun row => String.intercalate ", " (row.map cellStr))) ++ b)
    ∧ (∃ a b, explainPrompt q sql res = a ++ q ++ b)
    ∧ (∃ a b, explainPrompt q sql res = a ++ String.intercalate ", " res.columns ++ b) := by
  refine ⟨?_, ?_, ?_, ?_⟩
  · simp [explainPrompt, List.take_take]
  · exact ⟨"Given this question: \"" ++ q ++ "\"\n\nAnd this SQL query: " ++ sql ++
        "\n\nWhich returned these results (first 5 rows):\n" ++
        String.intercalate ", " res.columns ++ "\n",
      "\n\nProvide a brief, natural language answer to the original question based on the results. Be concise and direct.",
      by simp [explainPrompt, String.append_assoc]⟩
  · exact ⟨"Given this question: \"",
      "\"\n\nAnd this SQL query: " ++ sql ++
        "\n\nWhich returned these results (first 5 rows):\n" ++
        String.intercalate ", " res.columns ++ "\n" ++
        String.intercalate "\n"
          ((res.values.take 5).map (fun row => String.intercalate ", " (row.map cellStr))) ++
        "\n\nProvide a brief, natural language answer to the original question based on the results. Be concise and direct.",
      by simp [explainPrompt, String.append_assoc]⟩
  · exact ⟨"Given this question: \"" ++ q ++ "\"\n\nAnd this SQL query: " ++ sql ++
        "\n\nWhich returned these results (first 5 rows):\n",
      "\n" ++
        String.intercalate "\n"
          ((res.values.take 5).map (fun row => String.intercalate ", " (row.map cellStr))) ++
        "\n\nProvide a brief, natural language answer to the original question based on the results. Be concise and direct.",
      by simp [explainPrompt, String.append_assoc]⟩

/-! ## Orchestrator lemmas -/

theorem genBeqFix : (CallKind.generate == CallKind.fix) = false := rfl

theorem explBeqFix : (CallKind.explain == CallKind.fix) = false := rfl

theorem fixBeqFix : (CallKind.fix == CallKind.fix) = true := rfl

/-- The repair branch performs exactly one LLM call (tagged `fix`, with
the repair prompt) and at most one further execution. -/
theorem repairFlow_trace (oracle : Nat → Except String String) (idx : Nat) (eng : Engine)
    (schema sqlQuery errMsg : String) (prior : List Block)
    (llmAcc : List (CallKind × String)) (execAcc : List String) :
    ((repairFlow oracle idx eng schema sqlQuery errMsg prior llmAcc execAcc).2.llm
      = llmAcc ++ [(CallKind.fix, fixPrompt sqlQuery errMsg schema)])
    ∧ (((repairFlow oracle idx eng schema sqlQuery errMsg prior llmAcc execAcc).2.execs = execAcc)
       ∨ (∃ f, (repairFlow oracle idx eng schema sqlQuery errMsg prior llmAcc execAcc).2.execs
            = execAcc ++ [f])) := by
  rw [repairFlow]
  cases oracle idx with
  | error e => simp
  | ok raw =>
    by_cases hfx : cleanLLMResponse raw ≠ "" ∧ cleanLLMResponse raw ≠ sqlQuery
    · cases hex : eng.exec (cleanLLMResponse raw) with
      | error e2 => simp [hfx, hex]
      | ok rs => cases rs <;> simp [hfx, hex]
    · simp [hfx]

/-- The repair branch never renders an `answer` block, and when its LLM
call succeeds it keeps every prior block plus the error and
attempting-fix notices. -/
theorem repairFlow_blocks (oracle : Nat → Except String String) (idx : Nat) (eng : Engine)
    (schema sqlQuery errMsg : String) (prior : List Block)
    (llmAcc : List (CallKind × String)) (execAcc : List String) :
    (∀ a, Block.answer a ∉ prior →
       Block.answer a ∉
         ((repairFlow oracle idx eng schema sqlQuery errMsg prior llmAcc execAcc).1).blocks)
    ∧ (∀ rawF, oracle idx = Except.ok rawF →
        ∀ b, (b ∈ prior ∨ b = Block.sqlError errMsg ∨ b = Block.attemptingFix) →
          b ∈ ((repairFlow oracle idx eng schema sqlQuery errMsg prior llmAcc execAcc).1).blocks) := by
  rw [repairFlow]
  cases h : oracle idx with
  | error e =>
    constructor
    · intro a ha
      simp [NLResult.blocks]
    · intro rawF hF
      simp at hF
  | ok raw =>
    by_cases hfx : cleanLLMResponse raw ≠ "" ∧ cleanLLMResponse raw ≠ sqlQuery
    · cases hex : eng.exec (cleanLLMResponse raw) with
      | error e2 =>
        constructor
        · intro a ha
          simp [hfx, hex, NLResult.blocks, ha]
        · intro rawF hF b hb
          simp [hfx, hex, NLResult.blocks]
          tauto
      | ok rs =>
        cases rs with
        | nil =>
          constructor
          · intro a ha
            simp [hfx, hex, NLResult.blocks, ha]
          · intro rawF hF b hb
            simp [hfx, hex, NLResult.blocks]
            tauto
        | cons r rest =>
          constructor
          · intro a ha
            simp [hfx, hex, NLResult.blocks, ha]
          · intro rawF hF b hb
            simp [hfx, hex, NLResult.blocks]
            tauto
    · constructor
      · intro a ha
        simp [hfx, NLResult.blocks, ha]
      · intro rawF hF b hb
        simp [hfx, NLResult.blocks]
        tauto

set_option maxRecDepth 8000 in
/-- C3.  At most one repair call per invocation, in every run: the trace
never records more than one `fix`-tagged LLM call nor more than two
engine executions; and in the failing-then-failing instance, exactly one
repair call is made, the corrected statement is executed exactly once,
its error is rendered terminally, and no second repair call follows. -/
theorem at_most_one_repair (oracle : Nat → Except String String) (settings : Settings)
    (db : Option Engine) (input : String) :
    (((executeNLQuery oracle settings db input).2.llm.filter
        (fun p => p.1 == CallKind.fix)).length ≤ 1)
    ∧ ((executeNLQuery oracle settings db input).2.execs.length ≤ 2)
    ∧ (executeNLQuery repairOnceOracle ⟨"openai", "k"⟩ (some failEngine) "q"
        = (NLResult.page [Block.generatedSQL "SELECT A",
            Block.sqlError "no such table: missing", Block.attemptingFix,
            Block.fixedSQLCard "SELECT B", Block.fixedAlsoFailed "no such table: missing"],
           ⟨[(CallKind.generate, generatePrompt "q" ""),
             (CallKind.fix, fixPrompt "SELECT A" "no such table: missing" "")],
            ["SELECT A", "SELECT B"]⟩)) := by
  refine ⟨?_, ?_, by decide⟩ <;>
  · rw [executeNLQuery.eq_def]
    by_cases h1 : jsTrimS input = ""
    · simp [h1]
    cases db with
    | none => simp [h1]
    | some eng =>
      by_cases h2 : settings.apiKey = ""
      · simp [h1, h2]
      cases h3 : oracle 0 with
      | error e => simp [h1, h2, h3, genBeqFix]
      | ok raw =>
        cases h4 : eng.exec (cleanLLMResponse raw) with
        | error e =>
          obtain ⟨hllm, hex⟩ := repairFlow_trace oracle 1 eng
            (getSchemaForLLM eng.snap) (cleanLLMResponse raw) e
            [Block.generatedSQL (cleanLLMResponse raw)]
            [(CallKind.generate, generatePrompt (jsTrimS input) (getSchemaForLLM eng.snap))]
            [cleanLLMResponse raw]
          first
          | (simp [h1, h2, h3, h4, hllm, List.filter_append, genBeqFix, fixBeqFix]; done)
          | (rcases hex with hex | ⟨f, hex⟩ <;> simp [h1, h2, h3, h4, hex])
        | ok rs =>
          cases rs with
          | nil => simp [h1, h2, h3, h4, genBeqFix]
          | cons r rest =>
            cases h5 : oracle 1 with
            | ok rawE => simp [h1, h2, h3, h4, h5, genBeqFix, explBeqFix]
            | error e =>
              obtain ⟨hllm, hex⟩ := repairFlow_trace oracle 2 eng
                (getSchemaForLLM eng.snap) (cleanLLMResponse raw) e
                [Block.generatedSQL (cleanLLMResponse raw), Block.results r]
                [(CallKind.generate, generatePrompt (jsTrimS input) (getSchemaForLLM eng.snap)),
                 (CallKind.explain, explainPrompt (jsTrimS input) (cleanLLMResponse raw) r)]
                [cleanLLMResponse raw]
              first
              | (simp [h1, h2, h3, h4, h5, hllm, List.filter_append, genBeqFix, explBeqFix,
                  fixBeqFix]; done)
              | (rcases hex with hex | ⟨f, hex⟩ <;> simp [h1, h2, h3, h4, h5, hex])

/-- C4.  Any unmet entry precondition — empty (trimmed) question, no
loaded engine handle, or an empty API-key credential — makes
`executeNLQuery` return an alert immediately with an empty trace: zero
LLM (network) calls and zero engine executions. -/
theorem preconditions_no_work (oracle : Nat → Except String String) (settings : Settings)
    (db : Option Engine) (input : String)
    (h : jsTrimS input = "" ∨ db = none ∨ settings.apiKey = "") :
    ∃ m, executeNLQuery oracle settings db input = (NLResult.alert m, ⟨[], []⟩) := by
  rw [executeNLQuery.eq_def]
  by_cases h1 : jsTrimS input = ""
  · exact ⟨"Please enter a question", by simp [h1]⟩
  cases db with
  | none => exact ⟨"Please load a database first", by simp [h1]⟩
  | some eng =>
    rcases h with h | h | h
    · exact absurd h h1
    · exact absurd h (by simp)
    · exact ⟨"Please configure your API key in settings", by simp [h1, h]⟩

/-- C4 (witness). -/
theorem preconditions_no_work_witness :
    ∃ m, executeNLQuery (fun _ => Except.error "net down") ⟨"openai", "k"⟩ none
        "what are the rows" = (NLResult.alert m, ⟨[], []⟩) :=
  preconditions_no_work _ _ _ _ (Or.inr (Or.inl rfl))

set_option maxRecDepth 8000 in
/-- C1 (counterexample).  When the repair call returns SQL identical to
the failing original, the orchestrator does not re-execute it: the failing
SQL is executed exactly once (the trace records one execution, not two),
and no fixed-SQL card or re-execution outcome is rendered — refuting the
claim that an unchanged repair is still re-executed once. -/
theorem unchangedRepair_cex :
    executeNLQuery identicalFixOracle ⟨"openai", "k"⟩ (some failEngine) "question"
      = (NLResult.page [Block.generatedSQL "SELECT BAD",
          Block.sqlError "no such table: missing", Block.attemptingFix],
         ⟨[(CallKind.generate, generatePrompt "question" ""),
           (CallKind.fix, fixPrompt "SELECT BAD" "no such table: missing" "")],
          ["SELECT BAD"]⟩) := by decide

/-- C1 (amended).  If the repair call returns SQL character-for-character
identical to the failing original (after response cleaning), the
orchestrator special-cases it via the `fixedSQL !== sqlQuery` guard: it
performs zero re-executions, and the reported result carries only the
generated SQL, the original execution error and the attempting-fix
notice. -/
theorem unchangedRepairSkipsReexecution (oracle : Nat → Except String String)
    (settings : Settings) (eng : Engine) (input raw0 rawF e : String)
    (h1 : jsTrimS input ≠ "") (h2 : settings.apiKey ≠ "")
    (h3 : oracle 0 = Except.ok raw0)
    (h4 : eng.exec (cleanLLMResponse raw0) = Except.error e)
    (h5 : oracle 1 = Except.ok rawF)
    (h6 : cleanLLMResponse rawF = cleanLLMResponse raw0) :
    executeNLQuery oracle settings (some eng) input
      = (NLResult.page [Block.generatedSQL (cleanLLMResponse raw0), Block.sqlError e,
          Block.attemptingFix],
         ⟨[(CallKind.generate, generatePrompt (jsTrimS input) (getSchemaForLLM eng.snap)),
           (CallKind.fix, fixPrompt (cleanLLMResponse raw0) e (getSchemaForLLM eng.snap))],
          [cleanLLMResponse raw0]⟩) := by
  rw [executeNLQuery.eq_def]
  simp [h1, h2, h3, h4, repairFlow, h5, h6]

set_option maxRecDepth 8000 in
/-- C1 (witness). -/
theorem unchangedRepairSkipsReexecution_witness :
    executeNLQuery identicalFixOracle ⟨"openai", "k"⟩ (some failEngine) "question"
      = (NLResult.page [Block.generatedSQL (cleanLLMResponse "SELECT BAD"),
          Block.sqlError "no such table: missing", Block.attemptingFix],
         ⟨[(CallKind.generate,
             generatePrompt (jsTrimS "question") (getSchemaForLLM failEngine.snap)),
           (CallKind.fix, fixPrompt (cleanLLMResponse "SELECT BAD") "no such table: missing"
             (getSchemaForLLM failEngine.snap))],
          [cleanLLMResponse "SELECT BAD"]⟩) :=
  unchangedRepairSkipsReexecution identicalFixOracle ⟨"openai", "k"⟩ failEngine "question"
    "SELECT BAD" "SELECT BAD" "no such table: missing"
    (by decide) (by decide) rfl rfl rfl rfl

set_option maxRecDepth 8000 in
/-- C2 (counterexample).  A failure of the explain step is not swallowed:
in a run whose first execution returned rows and whose explain call
throws, one `fix`-tagged (repair) LLM call is made and a `SQL Error`
block carrying the explain failure is rendered — refuting the claim that
the pipeline reports plain success with the explanation merely absent and
no repair attempt. -/
theorem explainFailure_cex :
    (((executeNLQuery explainFailOracle ⟨"openai", "k"⟩ (some selOneEngine)
          "list them").2.llm.filter (fun p => p.1 == CallKind.fix)).length = 1)
    ∧ Block.sqlError "Failed to fetch"
        ∈ (executeNLQuery explainFailOracle ⟨"openai", "k"⟩ (some selOneEngine)
            "list them").1.blocks := by decide

/-- C2 (amended).  When the first execution yields rows and the explain
call then throws, the failure falls into the same `catch (sqlError)`
handler as an execution error: exactly one repair call is made, with the
repair prompt built from the explain failure's message; no answer block is
ever rendered; and when the repair call's network round-trip succeeds, the
rendered page still contains the rows but also the explain failure shown
as a SQL error. -/
theorem explainFailureTriggersRepair (oracle : Nat → Except String String)
    (settings : Settings) (eng : Engine) (input raw0 e : String) (r : ResObj)
    (rs : List ResObj)
    (h1 : jsTrimS input ≠ "") (h2 : settings.apiKey ≠ "")
    (h3 : oracle 0 = Except.ok raw0)
    (h4 : eng.exec (cleanLLMResponse raw0) = Except.ok (r :: rs))
    (h5 : oracle 1 = Except.error e) :
    ((executeNLQuery oracle settings (some eng) input).2.llm
      = [(CallKind.generate, generatePrompt (jsTrimS input) (getSchemaForLLM eng.snap)),
         (CallKind.explain, explainPrompt (jsTrimS input) (cleanLLMResponse raw0) r),
         (CallKind.fix, fixPrompt (cleanLLMResponse raw0) e (getSchemaForLLM eng.snap))])
    ∧ (∀ a, Block.answer a ∉ (executeNLQuery oracle settings (some eng) input).1.blocks)
    ∧ (∀ rawF, oracle 2 = Except.ok rawF →
        Block.results r ∈ (executeNLQuery oracle settings (some eng) input).1.blocks
        ∧ Block.sqlError e ∈ (executeNLQuery oracle settings (some eng) input).1.blocks) := by
  have hq : executeNLQuery oracle settings (some eng) input
      = repairFlow oracle 2 eng (getSchemaForLLM eng.snap) (cleanLLMResponse raw0) e
          [Block.generatedSQL (cleanLLMResponse raw0), Block.results r]
          [(CallKind.generate, generatePrompt (jsTrimS input) (getSchemaForLLM eng.snap)),
           (CallKind.explain, explainPrompt (jsTrimS input) (cleanLLMResponse raw0) r)]
          [cleanLLMResponse raw0] := by
    rw [executeNLQuery.eq_def]
    simp [h1, h2, h3, h4, h5]
  obtain ⟨hllm, _⟩ := repairFlow_trace oracle 2 eng (getSchemaForLLM eng.snap)
    (cleanLLMResponse raw0) e
    [Block.generatedSQL (cleanLLMResponse raw0), Block.results r]
    [(CallKind.generate, generatePrompt (jsTrimS input) (getSchemaForLLM eng.snap)),
     (CallKind.explain, explainPrompt (jsTrimS input) (cleanLLMResponse raw0) r)]
    [cleanLLMResponse raw0]
  obtain ⟨hans, hkeep⟩ := repairFlow_blocks oracle 2 eng (getSchemaForLLM eng.snap)
    (cleanLLMResponse raw0) e
    [Block.generatedSQL (cleanLLMResponse raw0), Block.results r]
    [(CallKind.generate, generatePrompt (jsTrimS input) (getSchemaForLLM eng.snap)),
     (CallKind.explain, explainPrompt (jsTrimS input) (cleanLLMResponse raw0) r)]
    [cleanLLMResponse raw0]
  rw [hq]
  refine ⟨by rw [hllm]; rfl, ?_, ?_⟩
  · intro a
    exact hans a (by simp)
  · intro rawF hF
    exact ⟨hkeep rawF hF _ (Or.inl (by simp)), hkeep rawF hF _ (Or.inr (Or.inl rfl))⟩

set_option maxRecDepth 8000 in
/-- C2 (witness). -/
theorem explainFailureTriggersRepair_witness :
    ((executeNLQuery explainFailOracle ⟨"openai", "k"⟩ (some selOneEngine) "list them").2.llm
      = [(CallKind.generate,
           generatePrompt (jsTrimS "list them") (getSchemaForLLM selOneEngine.snap)),
         (CallKind.explain, explainPrompt (jsTrimS "list them") (cleanLLMResponse "SELECT 1")
           (⟨["1"], [[some "1"]]⟩ : ResObj)),
         (CallKind.fix, fixPrompt (cleanLLMResponse "SELECT 1") "Failed to fetch"
           (getSchemaForLLM selOneEngine.snap))])
    ∧ (∀ a, Block.answer a
        ∉ (executeNLQuery explainFailOracle ⟨"openai", "k"⟩ (some selOneEngine)
            "list them").1.blocks)
    ∧ (∀ rawF, explainFailOracle 2 = Except.ok rawF →
        Block.results (⟨["1"], [[some "1"]]⟩ : ResObj)
          ∈ (executeNLQuery explainFailOracle ⟨"openai", "k"⟩ (some selOneEngine)
              "list them").1.blocks
        ∧ Block.sqlError "Failed to fetch"
          ∈ (executeNLQuery explainFailOracle ⟨"openai", "k"⟩ (some selOneEngine)
              "list them").1.blocks) :=
  explainFailureTriggersRepair explainFailOracle ⟨"openai", "k"⟩ selOneEngine "list them"
    "SELECT 1" "Failed to fetch" ⟨["1"], [[some "1"]]⟩ []
    (by decide) (by decide) rfl rfl rfl

set_option maxRecDepth 8000 in
/-- C6.  The result classifier: a result list containing a result object
is classified `Rows` of its first object even when that object has zero
rows (never `Empty`); `Empty` is produced exactly when the execution
returned no result object at all; a thrown execution is `EngineError`;
and a `CREATE TABLE t(x);`-only submission (which, per the spec's engine
contract, produces no result object) yields the no-results outcome both
through the pipeline and through the SQL editor runner. -/
theorem classify_spec :
    (∀ cols : List String, classify (Except.ok [⟨cols, []⟩]) = Outcome.rows ⟨cols, []⟩
       ∧ classify (Except.ok [⟨cols, []⟩]) ≠ Outcome.empty)
    ∧ (∀ rs : List ResObj, classify (Except.ok rs) = Outcome.empty ↔ rs = [])
    ∧ (∀ e : String, classify (Except.error e) = Outcome.engineError e)
    ∧ (∀ (oracle : Nat → Except String String) (settings : Settings) (eng : Engine)
          (input : String),
        jsTrimS input ≠ "" → settings.apiKey ≠ "" →
        oracle 0 = Except.ok "CREATE TABLE t(x);" →
        eng.exec "CREATE TABLE t(x);" = Except.ok [] →
        (executeNLQuery oracle settings (some eng) input).1
          = NLResult.page [Block.generatedSQL "CREATE TABLE t(x);", Block.noResultsWarning])
    ∧ runSQL (some ddlEngine) "CREATE TABLE t(x);" = RunOutcome.noResults := by
  refine ⟨fun cols => ⟨rfl, by simp [classify]⟩,
    fun rs => by cases rs <;> simp [classify],
    fun e => rfl, ?_, by decide⟩
  intro oracle settings eng input h1 h2 h3 h4
  have hc : cleanLLMResponse "CREATE TABLE t(x);" = "CREATE TABLE t(x);" := by decide
  rw [executeNLQuery.eq_def]
  simp [h1, h2, h3, hc, h4]

set_option maxRecDepth 8000 in
/-- C6 (witness). -/
theorem classify_spec_witness :
    (executeNLQuery (fun _ => Except.ok "CREATE TABLE t(x);") ⟨"openai", "k"⟩
        (some ddlEngine) "make a table").1
      = NLResult.page [Block.generatedSQL "CREATE TABLE t(x);", Block.noResultsWarning] :=
  classify_spec.2.2.2.1 (fun _ => Except.ok "CREATE TABLE t(x);") ⟨"openai", "k"⟩
    ddlEngine "make a table" (by decide) (by decide) rfl rfl

set_option maxRecDepth 8000 in
/-- C7.  The statement loop of `runSQL`: for every engine and submission,
the contributing statements appear in the outcome in source order (their
statement texts form a sublist of the executed statement list), each
recorded entry's result object is the head of what executing that entry's
own statement returned (statements are executed independently, and only
statements producing a result set contribute), and the two-statement
submission `SELECT 1; SELECT 2;` yields exactly two `Rows` entries in
source order. -/
theorem runSQL_multi :
    (∀ (exec : String → Except String (List ResObj)) (stmts : List String) (idx : Nat)
        (entries : List (Nat × String × ResObj)),
        execStatements exec stmts idx = Except.ok entries →
        List.Sublist (entries.map (fun en => en.2.1)) stmts)
    ∧ (∀ (exec : String → Except String (List ResObj)) (stmts : List String) (idx : Nat)
        (entries : List (Nat × String × ResObj)),
        execStatements exec stmts idx = Except.ok entries →
        ∀ en ∈ entries, ∃ tl, exec en.2.1 = Except.ok (en.2.2 :: tl))
    ∧ (runSQL (some sel2Engine) "SELECT 1; SELECT 2;"
        = RunOutcome.tables [(1, "SELECT 1", ⟨["1"], [[some "1"]]⟩),
            (2, " SELECT 2", ⟨["2"], [[some "2"]]⟩)]) := by
  refine ⟨?_, ?_, by decide⟩
  · intro exec stmts
    induction stmts with
    | nil =>
      intro idx entries h
      rw [execStatements] at h
      simp at h
      simp [← h]
    | cons st rest ih =>
      intro idx entries h
      rw [execStatements] at h
      by_cases ht : jsTrimS st = ""
      · rw [if_pos ht] at h
        exact (ih _ _ h).cons st
      rw [if_neg ht] at h
      cases hex : exec st with
      | error e =>
        rw [hex] at h
        exact absurd h (by simp)
      | ok rs =>
        rw [hex] at h
        cases rs with
        | nil => exact (ih _ _ h).cons st
        | cons r tl =>
          cases hrec : execStatements exec rest (idx + 1) with
          | error e =>
            rw [hrec] at h
            exact absurd h (by simp [Except.map])
          | ok acc =>
            rw [hrec] at h
            simp [Except.map] at h
            rw [← h]
            simp only [List.map_cons]
            exact (ih _ _ hrec).cons₂ st
  · intro exec stmts
    induction stmts with
    | nil =>
      intro idx entries h en hen
      rw [execStatements] at h
      simp at h
      rw [h] at hen
      simp at hen
    | cons st rest ih =>
      intro idx entries h en hen
      rw [execStatements] at h
      by_cases ht : jsTrimS st = ""
      · rw [if_pos ht] at h
        exact ih _ _ h en hen
      rw [if_neg ht] at h
      cases hex : exec st with
      | error e =>
        rw [hex] at h
        exact absurd h (by simp)
      | ok rs =>
        rw [hex] at h
        cases rs with
        | nil => exact ih _ _ h en hen
        | cons r tl =>
          cases hrec : execStatements exec rest (idx + 1) with
          | error e =>
            rw [hrec] at h
            exact absurd h (by simp [Except.map])
          | ok acc =>
            rw [hrec] at h
            simp [Except.map] at h
            rw [← h] at hen
            rcases List.mem_cons.mp hen with hen | hen
            · rw [hen]
              exact ⟨tl, hex⟩
            · exact ih _ _ hrec en hen
  
/-- C7 (witness). -/
theorem runSQL_multi_witness :
    (List.Sublist
      ([((1 : Nat), ("SELECT 1", (⟨["1"], [[some "1"]]⟩ : ResObj)))].map (fun en => en.2.1))
      ["SELECT 1"])
    ∧ (∃ tl, sel2Engine.exec "SELECT 1"
        = Except.ok ((⟨["1"], [[some "1"]]⟩ : ResObj) :: tl)) :=
  ⟨runSQL_multi.1 sel2Engine.exec ["SELECT 1"] 0
      [(1, "SELECT 1", ⟨["1"], [[some "1"]]⟩)] rfl,
   runSQL_multi.2.1 sel2Engine.exec ["SELECT 1"] 0
      [(1, "SELECT 1", ⟨["1"], [[some "1"]]⟩)] rfl
      (1, "SELECT 1", ⟨["1"], [[some "1"]]⟩) (by decide)⟩

/-- C5 (witness). -/
theorem cleanLLMResponse_spec_witness :
    (cleanLLMResponse "no fence here" = jsTrimS "no fence here")
    ∧ (cleanLLMResponse (List.asString
        ("Sure: ".data ++ bt :: bt :: bt :: 's' :: 'q' :: 'l' :: '\n' ::
         ("SELECT 2;".data ++ '\n' :: bt :: bt :: bt :: " done".data)))
        = (trimL "SELECT 2;".data).asString) :=
  ⟨cleanLLMResponse_spec.2.1 "no fence here" (by decide),
   cleanLLMResponse_spec.2.2.1 "Sure: ".data "SELECT 2;".data " done".data
     (by decide) (by decide)⟩
